import Mathlib

/-!
Shallow embedding of `src/device.rs` of the elk-bledom-controller crate.

The crate controls an ELK-BLEDOM BLE LED strip.  Its pure heart is a
command codec: every operation validates its arguments and builds a
9-byte frame `[0x7e, ..., 0xef]` which `send_command_bytes` writes to the
light characteristic (one fire-and-forget write, then a fixed 100 ms
settle delay).  Around it, `BledomDeviceBuilder::build` runs a scan loop
(`scan_retries` attempts of `find_light`, spaced by `scan_interval_ms`)
and a connect loop (`connection_retries` attempts spaced by
`connection_interval_ms`).

Bytes are modelled as `Nat` (the Rust values are `u8`, so every runtime
value is `< 256`; the validation code only compares, so it acts
identically on the whole of `Nat`); the one arithmetic operation on
bytes, `days + 0x80` in the schedule encoders, is modelled with an
explicit `% 256` for the `u8` wrap.  Fallible Rust functions returning
`Result<_, BledomError>` become `Except BledomError _`.  Async effects
(BLE writes, sleeps, scan control) are modelled as explicit event traces
`List Ev`, with the outcome of each external call (write result, scan
result, connect result) supplied as a parameter.
-/

/-- Error type of the crate, mirroring `enum BledomError` in
`src/device.rs` lines 14-34.  Variants that carry a source error or a
formatted message carry the rendered message string. -/
inductive BledomError where
  | bluetoothManagerError (msg : String)
  | noAdaptersFound
  | scanError (msg : String)
  | deviceNotFound
  | connectionFailed (msg : String)
  | serviceDiscoveryError (msg : String)
  | characteristicNotFound
  | invalidParameter (msg : String)
  | other (msg : String)
deriving DecidableEq, Repr

/-- Observable effects of the device code: a BLE write of a frame, a
sleep of some milliseconds, one `find_light` scan attempt, one
`stop_scan` call, one `connect` attempt. -/
inductive Ev where
  | write (frame : List Nat)
  | sleep (ms : Nat)
  | find
  | stopScan
  | connect
deriving DecidableEq, Repr

/-- Number of `find_light` attempts recorded in a trace. -/
def countFind (t : List Ev) : Nat :=
  (t.filter fun e => match e with | .find => true | _ => false).length

/-- Number of `connect` attempts recorded in a trace. -/
def countConnect (t : List Ev) : Nat :=
  (t.filter fun e => match e with | .connect => true | _ => false).length

/-- Number of BLE writes recorded in a trace. -/
def countWrite (t : List Ev) : Nat :=
  (t.filter fun e => match e with | .write _ => true | _ => false).length

/-- Concatenation of `n` copies of a segment, used to state loop traces. -/
def repeatList {α : Type} (n : Nat) (seg : List α) : List α :=
  match n with
  | 0 => []
  | n + 1 => seg ++ repeatList n seg

/-- Whether an `Except` value is `ok` (Rust `Result::is_ok`). -/
def exOk {ε α : Type} : Except ε α → Bool
  | .ok _ => true
  | .error _ => false

/-- Whether an `Except BledomError` value is an `InvalidParameter` error. -/
def isInvalidParameterErr {α : Type} : Except BledomError α → Bool
  | .error (.invalidParameter _) => true
  | _ => false

/-- Lower-case hex digit, as produced by Rust `{:x}` formatting. -/
def hexDigit (n : Nat) : Char :=
  if n < 10 then Char.ofNat (48 + n) else Char.ofNat (87 + n)

/-- Rendering of a `u8` value by Rust's `{:#02x}` format: the `0x`
marker followed by the minimal lower-case hex digits (a `u8` needs at
most two, and the width 2 of the format never forces padding because the
`0x` marker already fills it). -/
def rustHexU8 (n : Nat) : String :=
  "0x" ++ (if n < 16 then String.mk [hexDigit n]
           else String.mk [hexDigit (n / 16), hexDigit (n % 16)])

/-- Settle delay after each accepted write, `CMD_DELAY` at
`src/device.rs` line 12, in milliseconds. -/
def CMD_DELAY : Nat := 100

/-- Sum of the day bit flags, `WEEK_DAYS.all` at `src/device.rs`
line 64 (`0x01 + 0x02 + 0x04 + 0x08 + 0x10 + 0x20 + 0x40 = 0x7F`). -/
def WEEK_DAYS_all : Nat := 0x01 + 0x02 + 0x04 + 0x08 + 0x10 + 0x20 + 0x40

/-- Message of the malformed-frame guard in `send_command_bytes`
(`src/device.rs` line 246). -/
def malformed_msg : String :=
  "malformed command byte array (expected 9 bytes, starting with 0x7e and ending with 0xef)"

/-- Shape guard of `send_command_bytes` (`src/device.rs` line 245):
exactly 9 bytes, first `0x7e`, last `0xef`.  The Rust code indexes
`data[0]`/`data[8]` only after the length test short-circuits, which the
defaulted reads render faithfully under the length conjunct. -/
def frame_well_formed (data : List Nat) : Bool :=
  data.length == 9 && data.headD 0 == 0x7e && data.getD 8 0 == 0xef

/-- Command Channel, `send_command_bytes` at `src/device.rs`
lines 244-253.  `writeRes` is the outcome of the single
`peripheral.write` call: `none` for success, `some e` for a transport
error with message `e` (which the `?` operator converts into
`BledomError::BluetoothManagerError` via `#[from]`).  Returns the trace
of effects and the result. -/
def send_command_bytes (data : List Nat) (writeRes : Option String) :
    List Ev × Except BledomError Unit :=
  if frame_well_formed data then
    match writeRes with
    | some e => ([.write data], .error (.bluetoothManagerError e))
    | none => ([.write data, .sleep CMD_DELAY], .ok ())
  else
    ([], .error (.invalidParameter malformed_msg))

/-- Frame of `power_on` (`src/device.rs` lines 255-258). -/
def power_on_frame : Except BledomError (List Nat) :=
  .ok [0x7e, 0x00, 0x04, 0xf0, 0x00, 0x01, 0xff, 0x00, 0xef]

/-- Frame of `power_off` (`src/device.rs` lines 260-263). -/
def power_off_frame : Except BledomError (List Nat) :=
  .ok [0x7e, 0x00, 0x04, 0x00, 0x00, 0x00, 0xff, 0x00, 0xef]

/-- Validation and frame of `set_brightness` (`src/device.rs`
lines 265-273). -/
def set_brightness_frame (value : Nat) : Except BledomError (List Nat) :=
  if value > 0x64 then
    .error (.invalidParameter
      ("brightness value " ++ toString value ++ " out of supported range (0-100)."))
  else
    .ok [0x7e, 0x00, 0x01, value, 0x00, 0x00, 0x00, 0x00, 0xef]

/-- Wall-clock sample taken by `sync_time` via `chrono::offset::Local::now()`:
hour, minute, second and ISO day-of-week (1 = Monday .. 7 = Sunday). -/
structure Clock where
  hour : Nat
  minute : Nat
  second : Nat
  day_of_week : Nat
deriving DecidableEq, Repr

/-- Frame of `sync_time` (`src/device.rs` lines 275-293): samples the
clock and encodes it; the `as u8` casts are the `% 256`. -/
def sync_time_frame (c : Clock) : Except BledomError (List Nat) :=
  .ok [0x7e, 0x00, 0x83, c.hour % 256, c.minute % 256, c.second % 256,
       c.day_of_week % 256, 0x00, 0xef]

/-- Validation and frame of `set_custom_time` (`src/device.rs`
lines 295-335). -/
def set_custom_time_frame (hour minute second day_of_week : Nat) :
    Except BledomError (List Nat) :=
  if hour > 23 then
    .error (.invalidParameter
      ("hour value " ++ toString hour ++ " out of supported range (0-23)."))
  else if minute > 59 then
    .error (.invalidParameter
      ("minute value " ++ toString minute ++ " out of supported range (0-59)."))
  else if second > 59 then
    .error (.invalidParameter
      ("second value " ++ toString second ++ " out of supported range (0-59)."))
  else if ¬ (1 ≤ day_of_week ∧ day_of_week ≤ 7) then
    .error (.invalidParameter
      ("day of week value " ++ toString day_of_week ++
        " out of supported range (1-7, 1=Monday)."))
  else
    .ok [0x7e, 0x00, 0x83, hour, minute, second, day_of_week, 0x00, 0xef]

/-- Frame of `set_color` (`src/device.rs` lines 337-355). -/
def set_color_frame (red_value green_value blue_value : Nat) :
    Except BledomError (List Nat) :=
  .ok [0x7e, 0x00, 0x05, 0x03, red_value, green_value, blue_value, 0x00, 0xef]

/-- Frame of `set_effect` (`src/device.rs` lines 357-360). -/
def set_effect_frame (value : Nat) : Except BledomError (List Nat) :=
  .ok [0x7e, 0x00, 0x03, value, 0x03, 0x00, 0x00, 0x00, 0xef]

/-- Validation and frame of `set_effect_speed` (`src/device.rs`
lines 362-370). -/
def set_effect_speed_frame (value : Nat) : Except BledomError (List Nat) :=
  if value > 0x64 then
    .error (.invalidParameter
      ("effect speed value " ++ toString value ++ " out of supported range (0-100)."))
  else
    .ok [0x7e, 0x00, 0x02, value, 0x00, 0x00, 0x00, 0x00, 0xef]

/-- Validation and frame of `set_schedule_on` (`src/device.rs`
lines 372-398).  `days + 0x80` is a `u8` addition, hence the `% 256`. -/
def set_schedule_on_frame (days hours minutes : Nat) (enabled : Bool) :
    Except BledomError (List Nat) :=
  if days > WEEK_DAYS_all then
    .error (.invalidParameter
      ("days bitmask " ++ rustHexU8 days ++ " is invalid (max 0x7F)."))
  else if hours > 23 then
    .error (.invalidParameter
      ("hour value " ++ toString hours ++ " out of supported range (0-23)."))
  else if minutes > 59 then
    .error (.invalidParameter
      ("minute value " ++ toString minutes ++ " out of supported range (0-59)."))
  else
    .ok [0x7e, 0x00, 0x82, hours, minutes, 0x00, 0x00,
         (if enabled then (days + 0x80) % 256 else days), 0xef]

/-- Validation and frame of `set_schedule_off` (`src/device.rs`
lines 400-427); identical to `set_schedule_on` except byte 6 is 0x01. -/
def set_schedule_off_frame (days hours minutes : Nat) (enabled : Bool) :
    Except BledomError (List Nat) :=
  if days > WEEK_DAYS_all then
    .error (.invalidParameter
      ("days bitmask " ++ rustHexU8 days ++ " is invalid (max 0x7F)."))
  else if hours > 23 then
    .error (.invalidParameter
      ("hour value " ++ toString hours ++ " out of supported range (0-23)."))
  else if minutes > 59 then
    .error (.invalidParameter
      ("minute value " ++ toString minutes ++ " out of supported range (0-59)."))
  else
    .ok [0x7e, 0x00, 0x82, hours, minutes, 0x00, 0x01,
         (if enabled then (days + 0x80) % 256 else days), 0xef]

/-- Frame of `generic_command` (`src/device.rs` lines 429-439). -/
def generic_command_frame (id sub_id arg1 arg2 arg3 : Nat) :
    Except BledomError (List Nat) :=
  .ok [0x7e, 0x00, id, sub_id, arg1, arg2, arg3, 0x00, 0xef]

/-- One public command operation of `BledomDevice` together with its
arguments.  `sync_time` carries no argument: its data comes from the
wall clock, passed separately to `encode`. -/
inductive Op where
  | power_on
  | power_off
  | set_brightness (value : Nat)
  | sync_time
  | set_custom_time (hour minute second day_of_week : Nat)
  | set_color (red_value green_value blue_value : Nat)
  | set_effect (value : Nat)
  | set_effect_speed (value : Nat)
  | set_schedule_on (days hours minutes : Nat) (enabled : Bool)
  | set_schedule_off (days hours minutes : Nat) (enabled : Bool)
  | generic_command (id sub_id arg1 arg2 arg3 : Nat)
deriving DecidableEq, Repr

/-- Validation-plus-encoding step of each public operation: everything
the operation does before its `send_command_bytes` call, at clock `c`. -/
def encode (c : Clock) : Op → Except BledomError (List Nat)
  | .power_on => power_on_frame
  | .power_off => power_off_frame
  | .set_brightness v => set_brightness_frame v
  | .sync_time => sync_time_frame c
  | .set_custom_time h m s d => set_custom_time_frame h m s d
  | .set_color r g b => set_color_frame r g b
  | .set_effect v => set_effect_frame v
  | .set_effect_speed v => set_effect_speed_frame v
  | .set_schedule_on d h m e => set_schedule_on_frame d h m e
  | .set_schedule_off d h m e => set_schedule_off_frame d h m e
  | .generic_command i s a1 a2 a3 => generic_command_frame i s a1 a2 a3

/-- Full run of a public operation: a validation failure returns the
error with no effect (the Rust `return Err(...)` precedes the
`send_command_bytes` call); otherwise the frame goes to the Channel. -/
def run_op (enc : Except BledomError (List Nat)) (writeRes : Option String) :
    List Ev × Except BledomError Unit :=
  match enc with
  | .error e => ([], .error e)
  | .ok f => send_command_bytes f writeRes

/-- Properties record of a discovered peripheral; only the advertised
`local_name` matters to `find_light`. -/
structure PeripheralProperties where
  local_name : Option String
deriving DecidableEq, Repr

/-- Discovered peripheral.  `props` is the outcome of its
`properties()` call: `Except.error e` for a transport error with message
`e`, `.ok none` for "no properties record", `.ok (some pr)` for a
record. -/
structure Peripheral where
  id : Nat
  props : Except String (Option PeripheralProperties)
deriving Repr

/-- Whether `pattern` starts the character list `text`. -/
def charsStartWith : List Char → List Char → Bool
  | [], _ => true
  | _ :: _, [] => false
  | a :: as, b :: bs => a == b && charsStartWith as bs

/-- Whether `pattern` occurs contiguously inside `text`. -/
def charsContain (pattern : List Char) : List Char → Bool
  | [] => charsStartWith pattern []
  | c :: rest => charsStartWith pattern (c :: rest) || charsContain pattern rest

/-- Rust `str::contains` with a string pattern: substring test. -/
def strContainsSub (text pattern : String) : Bool :=
  charsContain pattern.toList text.toList

/-- Name test of `find_light` (`src/device.rs` line 464): the advertised
name contains the product substring. -/
def nameMatches (name : String) : Bool :=
  strContainsSub name "ELK-BLEDOM"

/-- Scan-attempt function `find_light` (`src/device.rs` lines 455-470)
over the enumerated peripherals.  A `properties()` transport error
propagates via `?` as `BluetoothManagerError`; a missing properties
record becomes the `Other` error "Peripheral properties not available";
`local_name.iter().any(..)` is false on a missing name, so such a
peripheral is skipped. -/
def find_light : List Peripheral → Except BledomError Peripheral
  | [] => .error .deviceNotFound
  | p :: ps =>
    match p.props with
    | .error e => .error (.bluetoothManagerError e)
    | .ok none => .error (.other "Peripheral properties not available")
    | .ok (some pr) =>
      match pr.local_name with
      | none => find_light ps
      | some name => if nameMatches name then .ok p else find_light ps

/-- Scan loop of `BledomDeviceBuilder::build` (`src/device.rs`
lines 171-196), generic in the type `α` of the found peripheral.
`outcome k` is the result of the k-th `find_light` call (0-based);
`stopRes` is the outcome of the single `stop_scan` call a run performs
(`none` = success, `some e` = failure with message `e`).

The Rust loop tests `find_count >= scan_retries` at the top and
increments `find_count` once per iteration, so the remaining budget
`scan_retries - find_count` decreases by one each round; the recursion
is on that budget (`budget = 0` is exactly the exhaustion guard), with
`count` tracking `find_count` to index `outcome`.  On exhaustion and on
a non-`DeviceNotFound` error, `stop_scan().await.ok()` discards the
stop result; after a successful find the loop still increments and
sleeps before exiting, and the final `stop_scan` propagates a failure
as `ScanError("failed to stop scan: ..")` via `?`. -/
def scanGo {α : Type} (outcome : Nat → Except BledomError α)
    (interval : Nat) (stopRes : Option String) :
    Nat → Nat → List Ev × Except BledomError α
  | _count, 0 => ([.stopScan], .error .deviceNotFound)
  | count, budget + 1 =>
    match outcome count with
    | .ok p =>
      ([.find, .sleep interval, .stopScan],
        match stopRes with
        | none => .ok p
        | some e => .error (.scanError ("failed to stop scan: " ++ e)))
    | .error .deviceNotFound =>
      let r := scanGo outcome interval stopRes (count + 1) budget
      ([.find, .sleep interval] ++ r.1, r.2)
    | .error e => ([.find, .stopScan], .error e)

/-- Entry point of the scan loop: `find_count` starts at 0, so the
remaining budget is `scan_retries`. -/
def scanPhase {α : Type} (scan_retries interval : Nat)
    (outcome : Nat → Except BledomError α) (stopRes : Option String) :
    List Ev × Except BledomError α :=
  scanGo outcome interval stopRes 0 scan_retries

/-- Connect loop of `BledomDeviceBuilder::build` (`src/device.rs`
lines 198-216).  `res k` is the outcome of the k-th `connect()` call
(0-based): `none` = success, `some msg` = failure with message `msg`.

The Rust loop increments `connect_count` on each failure and returns
`ConnectionFailed` when `connect_count >= connection_retries` after the
increment, i.e. when `count + 1 ≥ retries`; otherwise it sleeps and
retries.  Under the invariant `remaining = retries - 1 - count` (Nat
subtraction), that exit test is exactly `remaining = 0`, and `remaining`
decreases by one per failed round, so the recursion is on
`remaining`. -/
def connectGo (res : Nat → Option String) (interval : Nat) :
    Nat → Nat → List Ev × Except BledomError Unit
  | count, remaining =>
    match res count with
    | none => ([.connect], .ok ())
    | some msg =>
      match remaining with
      | 0 => ([.connect], .error (.connectionFailed msg))
      | r + 1 =>
        let hm := connectGo res interval (count + 1) r
        ([.connect, .sleep interval] ++ hm.1, hm.2)

/-- Entry point of the connect loop: `connect_count` starts at 0, so
`remaining = connection_retries - 1` (Nat subtraction: 0 when
`connection_retries = 0`). -/
def connectPhase (connection_retries interval : Nat)
    (res : Nat → Option String) : List Ev × Except BledomError Unit :=
  connectGo res interval 0 (connection_retries - 1)

/-! ### Auxiliary lemmas -/

/-- A 9-byte list starting `0x7e` and ending `0xef` passes the frame
guard, whatever the middle bytes are. -/
theorem frame_well_formed_explicit (b1 b2 b3 b4 b5 b6 b7 : Nat) :
    frame_well_formed [0x7e, b1, b2, b3, b4, b5, b6, b7, 0xef] = true := rfl

/-- On a well-formed frame the Channel takes the valid branch: one
write, then either the surfaced transport error or the settle sleep. -/
theorem send_command_bytes_valid (f : List Nat)
    (hw : frame_well_formed f = true) (w : Option String) :
    send_command_bytes f w =
      match w with
      | some e => ([.write f], .error (.bluetoothManagerError e))
      | none => ([.write f, .sleep CMD_DELAY], .ok ()) := by
  simp [send_command_bytes, hw]

/-- Every encoder either succeeds or fails with `InvalidParameter`. -/
theorem encode_ok_or_invalid (c : Clock) (op : Op) :
    exOk (encode c op) = true ∨ isInvalidParameterErr (encode c op) = true := by
  cases op with
  | set_brightness v =>
    by_cases hv : v > 0x64 <;>
      simp [encode, set_brightness_frame, hv, exOk, isInvalidParameterErr]
  | set_effect_speed v =>
    by_cases hv : v > 0x64 <;>
      simp [encode, set_effect_speed_frame, hv, exOk, isInvalidParameterErr]
  | set_custom_time h m s d =>
    simp only [encode, set_custom_time_frame]
    split_ifs <;> simp [exOk, isInvalidParameterErr]
  | set_schedule_on d h m e =>
    simp only [encode, set_schedule_on_frame]
    split_ifs <;> simp [exOk, isInvalidParameterErr]
  | set_schedule_off d h m e =>
    simp only [encode, set_schedule_off_frame]
    split_ifs <;> simp [exOk, isInvalidParameterErr]
  | _ => left; rfl

/-- Every frame an encoder emits passes the Channel's shape guard. -/
theorem encode_frame_well_formed (c : Clock) (op : Op) (f : List Nat)
    (h : encode c op = .ok f) : frame_well_formed f = true := by
  cases op with
  | set_brightness v =>
    by_cases hv : v > 0x64 <;> simp [encode, set_brightness_frame, hv] at h <;>
      simp [← h, frame_well_formed_explicit]
  | set_effect_speed v =>
    by_cases hv : v > 0x64 <;> simp [encode, set_effect_speed_frame, hv] at h <;>
      simp [← h, frame_well_formed_explicit]
  | set_custom_time hh mm ss dd =>
    simp only [encode, set_custom_time_frame] at h
    split_ifs at h <;> simp at h <;> simp [← h, frame_well_formed_explicit]
  | set_schedule_on d hh mm e =>
    simp only [encode, set_schedule_on_frame] at h
    split_ifs at h <;> simp at h <;> simp [← h, frame_well_formed_explicit]
  | set_schedule_off d hh mm e =>
    simp only [encode, set_schedule_off_frame] at h
    split_ifs at h <;> simp at h <;> simp [← h, frame_well_formed_explicit]
  | power_on => simp [encode, power_on_frame] at h; simp [← h, frame_well_formed_explicit]
  | power_off => simp [encode, power_off_frame] at h; simp [← h, frame_well_formed_explicit]
  | sync_time => simp [encode, sync_time_frame] at h; simp [← h, frame_well_formed_explicit]
  | set_color r g b => simp [encode, set_color_frame] at h; simp [← h, frame_well_formed_explicit]
  | set_effect v => simp [encode, set_effect_frame] at h; simp [← h, frame_well_formed_explicit]
  | generic_command i s a1 a2 a3 =>
    simp [encode, generic_command_frame] at h; simp [← h, frame_well_formed_explicit]

/-! ### Claim theorems: codec and channel -/

/-- C1: every frame any public operation (power_on, power_off,
set_brightness, sync_time, set_custom_time, set_color, set_effect,
set_effect_speed, set_schedule_on, set_schedule_off, generic_command)
hands to the Command Channel is exactly 9 bytes with byte 0 = 0x7E and
byte 8 = 0xEF, so the malformed-frame branch of `send_command_bytes` is
unreachable from any public operation: the Channel never answers with
the malformed-frame `InvalidParameter` error. -/
theorem c1_frame_shape (c : Clock) (op : Op) (f : List Nat)
    (h : encode c op = .ok f) :
    f.length = 9 ∧ f.headD 0 = 0x7e ∧ f.getD 8 0 = 0xef ∧
    frame_well_formed f = true ∧
    ∀ w, (send_command_bytes f w).2 ≠ .error (.invalidParameter malformed_msg) := by
  have hw := encode_frame_well_formed c op f h
  have hparts : f.length = 9 ∧ f.headD 0 = 0x7e ∧ f.getD 8 0 = 0xef := by
    have := hw
    simp only [frame_well_formed, Bool.and_eq_true, beq_iff_eq] at this
    exact ⟨this.1.1, this.1.2, this.2⟩
  refine ⟨hparts.1, hparts.2.1, hparts.2.2, hw, fun w => ?_⟩
  rw [send_command_bytes_valid f hw w]
  cases w <;> simp

/-- C1 witness: the `power_on` frame instantiates the shape theorem. -/
theorem c1_frame_shape_witness :
    ([0x7e, 0x00, 0x04, 0xf0, 0x00, 0x01, 0xff, 0x00, 0xef] : List Nat).length = 9 ∧
    ([0x7e, 0x00, 0x04, 0xf0, 0x00, 0x01, 0xff, 0x00, 0xef] : List Nat).headD 0 = 0x7e ∧
    ([0x7e, 0x00, 0x04, 0xf0, 0x00, 0x01, 0xff, 0x00, 0xef] : List Nat).getD 8 0 = 0xef ∧
    frame_well_formed [0x7e, 0x00, 0x04, 0xf0, 0x00, 0x01, 0xff, 0x00, 0xef] = true ∧
    ∀ w, (send_command_bytes [0x7e, 0x00, 0x04, 0xf0, 0x00, 0x01, 0xff, 0x00, 0xef] w).2 ≠
      .error (.invalidParameter malformed_msg) :=
  c1_frame_shape ⟨0, 0, 0, 1⟩ .power_on _ rfl

/-- C2: the Codec enforces every validation bound inclusively:
brightness and effect speed accept exactly 0..100; custom time accepts
exactly hour ≤ 23, minute ≤ 59, second ≤ 59, 1 ≤ day ≤ 7; both schedule
operations accept exactly days ≤ 0x7F, hours ≤ 23, minutes ≤ 59; and
every rejection is an `InvalidParameter` error. -/
theorem c2_validation_bounds :
    (∀ v, exOk (set_brightness_frame v) = true ↔ v ≤ 100) ∧
    (∀ v, 100 < v → isInvalidParameterErr (set_brightness_frame v) = true) ∧
    (∀ v, exOk (set_effect_speed_frame v) = true ↔ v ≤ 100) ∧
    (∀ v, 100 < v → isInvalidParameterErr (set_effect_speed_frame v) = true) ∧
    (∀ h m s d, exOk (set_custom_time_frame h m s d) = true ↔
      (h ≤ 23 ∧ m ≤ 59 ∧ s ≤ 59 ∧ 1 ≤ d ∧ d ≤ 7)) ∧
    (∀ h m s d, ¬ (h ≤ 23 ∧ m ≤ 59 ∧ s ≤ 59 ∧ 1 ≤ d ∧ d ≤ 7) →
      isInvalidParameterErr (set_custom_time_frame h m s d) = true) ∧
    (∀ d h m e, exOk (set_schedule_on_frame d h m e) = true ↔
      (d ≤ 0x7F ∧ h ≤ 23 ∧ m ≤ 59)) ∧
    (∀ d h m e, ¬ (d ≤ 0x7F ∧ h ≤ 23 ∧ m ≤ 59) →
      isInvalidParameterErr (set_schedule_on_frame d h m e) = true) ∧
    (∀ d h m e, exOk (set_schedule_off_frame d h m e) = true ↔
      (d ≤ 0x7F ∧ h ≤ 23 ∧ m ≤ 59)) ∧
    (∀ d h m e, ¬ (d ≤ 0x7F ∧ h ≤ 23 ∧ m ≤ 59) →
      isInvalidParameterErr (set_schedule_off_frame d h m e) = true) := by
  refine ⟨?_, ?_, ?_, ?_, ?_, ?_, ?_, ?_, ?_, ?_⟩
  · intro v
    simp only [set_brightness_frame]
    split_ifs with h <;> simp [exOk] <;> omega
  · intro v hv
    simp only [set_brightness_frame]
    split_ifs with h <;> first | rfl | omega
  · intro v
    simp only [set_effect_speed_frame]
    split_ifs with h <;> simp [exOk] <;> omega
  · intro v hv
    simp only [set_effect_speed_frame]
    split_ifs with h <;> first | rfl | omega
  · intro h m s d
    simp only [set_custom_time_frame]
    split_ifs <;> simp [exOk] <;> omega
  · intro h m s d hv
    simp only [set_custom_time_frame]
    split_ifs <;> first | rfl | omega
  · intro d h m e
    simp only [set_schedule_on_frame, WEEK_DAYS_all]
    split_ifs <;> simp [exOk] <;> omega
  · intro d h m e hv
    simp only [set_schedule_on_frame, WEEK_DAYS_all]
    split_ifs <;> first | rfl | omega
  · intro d h m e
    simp only [set_schedule_off_frame, WEEK_DAYS_all]
    split_ifs <;> simp [exOk] <;> omega
  · intro d h m e hv
    simp only [set_schedule_off_frame, WEEK_DAYS_all]
    split_ifs <;> first | rfl | omega

/-- C2 witness: the boundary values of the validation table. -/
theorem c2_validation_bounds_witness :
    exOk (set_brightness_frame 100) = true ∧
    isInvalidParameterErr (set_brightness_frame 101) = true ∧
    isInvalidParameterErr (set_brightness_frame 255) = true ∧
    isInvalidParameterErr (set_effect_speed_frame 101) = true ∧
    exOk (set_custom_time_frame 23 59 59 7) = true ∧
    isInvalidParameterErr (set_custom_time_frame 24 0 0 1) = true ∧
    isInvalidParameterErr (set_custom_time_frame 0 60 0 1) = true ∧
    isInvalidParameterErr (set_custom_time_frame 0 0 60 1) = true ∧
    isInvalidParameterErr (set_custom_time_frame 0 0 0 0) = true ∧
    isInvalidParameterErr (set_custom_time_frame 0 0 0 8) = true ∧
    exOk (set_schedule_on_frame 0x7F 23 59 true) = true ∧
    isInvalidParameterErr (set_schedule_on_frame 0x80 0 0 true) = true ∧
    isInvalidParameterErr (set_schedule_off_frame 0x80 0 0 false) = true := by
  obtain ⟨b_ok, b_err, es_ok, es_err, ct_ok, ct_err, on_ok, on_err, off_ok, off_err⟩ :=
    c2_validation_bounds
  exact ⟨(b_ok 100).mpr (by decide), b_err 101 (by decide), b_err 255 (by decide),
    es_err 101 (by decide), (ct_ok 23 59 59 7).mpr (by decide),
    ct_err 24 0 0 1 (by decide), ct_err 0 60 0 1 (by decide),
    ct_err 0 0 60 1 (by decide), ct_err 0 0 0 0 (by decide),
    ct_err 0 0 0 8 (by decide), (on_ok 0x7F 23 59 true).mpr (by decide),
    on_err 0x80 0 0 true (by decide), off_err 0x80 0 0 false (by decide)⟩

/-- C3: for every valid schedule input (days ≤ 0x7F, hours ≤ 23,
minutes ≤ 59) the emitted frame has opcode byte 2 = 0x82, byte 3 =
hours, byte 4 = minutes, byte 5 = 0x00, sub-flag byte 6 = 0x00 for
schedule-on and 0x01 for schedule-off, and byte 7 = days + 0x80 when
enabled and days otherwise; the addition never overflows a byte. -/
theorem c3_schedule_frames (days hours minutes : Nat) (enabled : Bool)
    (hd : days ≤ 0x7F) (hh : hours ≤ 23) (hm : minutes ≤ 59) :
    set_schedule_on_frame days hours minutes enabled =
      .ok [0x7e, 0x00, 0x82, hours, minutes, 0x00, 0x00,
           (if enabled then days + 0x80 else days), 0xef] ∧
    set_schedule_off_frame days hours minutes enabled =
      .ok [0x7e, 0x00, 0x82, hours, minutes, 0x00, 0x01,
           (if enabled then days + 0x80 else days), 0xef] ∧
    days + 0x80 < 256 := by
  have hmod : (days + 0x80) % 256 = days + 0x80 := Nat.mod_eq_of_lt (by omega)
  have h1 : ¬ days > WEEK_DAYS_all := by simp only [WEEK_DAYS_all]; omega
  have h2 : ¬ hours > 23 := by omega
  have h3 : ¬ minutes > 59 := by omega
  refine ⟨?_, ?_, by omega⟩ <;>
    simp [set_schedule_on_frame, set_schedule_off_frame, h1, h2, h3, hmod]

/-- C3 witness: days = 0x01 gives byte 7 = 0x81 when enabled and 0x01
when disabled. -/
theorem c3_schedule_frames_witness :
    (set_schedule_on_frame 0x01 6 30 true =
      .ok [0x7e, 0x00, 0x82, 6, 30, 0x00, 0x00, 0x81, 0xef] ∧
     set_schedule_off_frame 0x01 6 30 true =
      .ok [0x7e, 0x00, 0x82, 6, 30, 0x00, 0x01, 0x81, 0xef]) ∧
    (set_schedule_on_frame 0x01 6 30 false =
      .ok [0x7e, 0x00, 0x82, 6, 30, 0x00, 0x00, 0x01, 0xef] ∧
     set_schedule_off_frame 0x01 6 30 false =
      .ok [0x7e, 0x00, 0x82, 6, 30, 0x00, 0x01, 0x01, 0xef]) := by
  have ht := c3_schedule_frames 0x01 6 30 true (by decide) (by decide) (by decide)
  have hf := c3_schedule_frames 0x01 6 30 false (by decide) (by decide) (by decide)
  refine ⟨⟨?_, ?_⟩, ⟨?_, ?_⟩⟩
  · simpa using ht.1
  · simpa using ht.2.1
  · simpa using hf.1
  · simpa using hf.2.1

/-- C6: when validation rejects an argument, the operation returns the
`InvalidParameter` error before any transport interaction: the run
produces an empty effect trace (no write, no settle sleep), whatever the
transport would have answered. -/
theorem c6_validation_atomic (c : Clock) (op : Op) (e : BledomError)
    (h : encode c op = .error e) :
    (∀ w, run_op (encode c op) w = ([], .error e)) ∧
    isInvalidParameterErr (encode c op) = true := by
  constructor
  · intro w
    rw [h]
    rfl
  · rcases encode_ok_or_invalid c op with hok | hinv
    · rw [h] at hok
      simp [exOk] at hok
    · exact hinv

/-- C6 witness: `set_brightness 101` fails with no effects. -/
theorem c6_validation_atomic_witness :
    (∀ w, run_op (encode ⟨0, 0, 0, 1⟩ (.set_brightness 101)) w =
      ([], .error (.invalidParameter
        "brightness value 101 out of supported range (0-100)."))) ∧
    isInvalidParameterErr (encode ⟨0, 0, 0, 1⟩ (.set_brightness 101)) = true :=
  c6_validation_atomic ⟨0, 0, 0, 1⟩ (.set_brightness 101) _ rfl

/-- C7: on a well-formed frame the Channel does exactly one write and
never retries: a transport error is surfaced (as the `From`-converted
`BluetoothManagerError`) with no second write and no sleep; on success
the fixed settle delay `CMD_DELAY` = 100 ms is awaited and `Ok`
returned. -/
theorem c7_single_write_channel (f : List Nat)
    (hw : frame_well_formed f = true) :
    (∀ e, send_command_bytes f (some e) =
      ([.write f], .error (.bluetoothManagerError e))) ∧
    send_command_bytes f none = ([.write f, .sleep CMD_DELAY], .ok ()) ∧
    CMD_DELAY = 100 ∧
    (∀ w, countWrite (send_command_bytes f w).1 = 1) := by
  refine ⟨fun e => send_command_bytes_valid f hw (some e), send_command_bytes_valid f hw none,
    rfl, fun w => ?_⟩
  rw [send_command_bytes_valid f hw w]
  cases w <;> rfl

/-- C7 witness: the Channel on the `power_off` frame. -/
theorem c7_single_write_channel_witness :
    (∀ e, send_command_bytes [0x7e, 0x00, 0x04, 0x00, 0x00, 0x00, 0xff, 0x00, 0xef] (some e) =
      ([.write [0x7e, 0x00, 0x04, 0x00, 0x00, 0x00, 0xff, 0x00, 0xef]],
        .error (.bluetoothManagerError e))) ∧
    send_command_bytes [0x7e, 0x00, 0x04, 0x00, 0x00, 0x00, 0xff, 0x00, 0xef] none =
      ([.write [0x7e, 0x00, 0x04, 0x00, 0x00, 0x00, 0xff, 0x00, 0xef], .sleep CMD_DELAY],
        .ok ()) ∧
    CMD_DELAY = 100 ∧
    (∀ w, countWrite
      (send_command_bytes [0x7e, 0x00, 0x04, 0x00, 0x00, 0x00, 0xff, 0x00, 0xef] w).1 = 1) :=
  c7_single_write_channel _ (by decide)

/-- C8: encoding is deterministic for every operation except
`sync_time`: the emitted frame does not depend on the sampled clock, so
two calls with identical arguments give byte-identical frames; and
`sync_time` is clock-dependent, witnessed by two clocks whose frames
differ. -/
theorem c8_determinism :
    (∀ (op : Op) (c₁ c₂ : Clock), op ≠ .sync_time → encode c₁ op = encode c₂ op) ∧
    (∃ c₁ c₂ : Clock, encode c₁ .sync_time ≠ encode c₂ .sync_time) := by
  constructor
  · intro op c₁ c₂ hop
    cases op with
    | sync_time => exact absurd rfl hop
    | _ => rfl
  · refine ⟨⟨0, 0, 0, 1⟩, ⟨1, 0, 0, 1⟩, ?_⟩
    simp [encode, sync_time_frame]

/-- C8 witness: `set_color` with fixed arguments is clock-independent. -/
theorem c8_determinism_witness :
    encode ⟨0, 0, 0, 1⟩ (.set_color 10 20 30) = encode ⟨23, 59, 59, 7⟩ (.set_color 10 20 30) :=
  c8_determinism.1 (.set_color 10 20 30) ⟨0, 0, 0, 1⟩ ⟨23, 59, 59, 7⟩ (by decide)

/-! ### Auxiliary lemmas for the acquisition loops -/

/-- Find-attempt counting distributes over trace concatenation. -/
theorem countFind_append (a b : List Ev) :
    countFind (a ++ b) = countFind a + countFind b := by
  simp [countFind, List.filter_append]

/-- Each `[find, sleep]` segment holds one find attempt. -/
theorem countFind_repeatList (n interval : Nat) :
    countFind (repeatList n [.find, .sleep interval]) = n := by
  induction n with
  | zero => rfl
  | succ n ih =>
    have h1 : countFind [Ev.find, Ev.sleep interval] = 1 := rfl
    simp only [repeatList]
    rw [countFind_append, ih, h1]
    omega

/-- Connect-attempt counting distributes over trace concatenation. -/
theorem countConnect_append (a b : List Ev) :
    countConnect (a ++ b) = countConnect a + countConnect b := by
  simp [countConnect, List.filter_append]

/-- Each `[connect, sleep]` segment holds one connect attempt. -/
theorem countConnect_repeatList (n interval : Nat) :
    countConnect (repeatList n [.connect, .sleep interval]) = n := by
  induction n with
  | zero => rfl
  | succ n ih =>
    have h1 : countConnect [Ev.connect, Ev.sleep interval] = 1 := rfl
    simp only [repeatList]
    rw [countConnect_append, ih, h1]
    omega

/-- If every find attempt reports `DeviceNotFound`, the scan loop burns
its whole budget: one find and one sleep per remaining unit, then the
best-effort stop and the `DeviceNotFound` exit, whatever the stop-scan
outcome. -/
theorem scanGo_allDNF {α : Type} (outcome : Nat → Except BledomError α)
    (interval : Nat) (stopRes : Option String)
    (hall : ∀ k, outcome k = .error .deviceNotFound) :
    ∀ b c, scanGo outcome interval stopRes c b =
      (repeatList b [.find, .sleep interval] ++ [.stopScan], .error .deviceNotFound)
  | 0, c => by simp [scanGo, repeatList]
  | b + 1, c => by
    simp [scanGo, hall c, scanGo_allDNF outcome interval stopRes hall b (c + 1),
      repeatList]

/-- A run of `n` `DeviceNotFound` attempts inside the budget only adds
`n` find/sleep segments in front of the rest of the loop. -/
theorem scanGo_skip {α : Type} (outcome : Nat → Except BledomError α)
    (interval : Nat) (stopRes : Option String) :
    ∀ (n c b : Nat), (∀ k, k < n → outcome (c + k) = .error .deviceNotFound) → n ≤ b →
      scanGo outcome interval stopRes c b =
        (repeatList n [.find, .sleep interval] ++
          (scanGo outcome interval stopRes (c + n) (b - n)).1,
         (scanGo outcome interval stopRes (c + n) (b - n)).2) := by
  intro n
  induction n with
  | zero => intro c b _ _; simp [repeatList]
  | succ n ih =>
    intro c b h hnb
    obtain ⟨b', rfl⟩ : ∃ b', b = b' + 1 := ⟨b - 1, by omega⟩
    have h0 : outcome c = .error .deviceNotFound := by
      have := h 0 (by omega)
      simpa using this
    have hrest : ∀ k, k < n → outcome (c + 1 + k) = .error .deviceNotFound := by
      intro k hk
      have := h (k + 1) (by omega)
      have hEq : c + (k + 1) = c + 1 + k := by omega
      rwa [hEq] at this
    have hc : c + 1 + n = c + (n + 1) := by omega
    have hb : b' + 1 - (n + 1) = b' - n := by omega
    have step : scanGo outcome interval stopRes c (b' + 1) =
        ([.find, .sleep interval] ++ (scanGo outcome interval stopRes (c + 1) b').1,
         (scanGo outcome interval stopRes (c + 1) b').2) := by
      simp [scanGo, h0]
    rw [step, ih (c + 1) b' hrest (by omega), hc, hb]
    simp [repeatList, List.append_assoc]

/-- If every connect attempt fails, the connect loop burns its whole
budget: one connect and one sleep per remaining unit, a final connect,
then `ConnectionFailed` carrying the last attempt's message. -/
theorem connectGo_allFail (m : Nat → String) (interval : Nat) :
    ∀ (rem c : Nat), connectGo (fun k => some (m k)) interval c rem =
      (repeatList rem [.connect, .sleep interval] ++ [.connect],
        .error (.connectionFailed (m (c + rem))))
  | 0, c => by simp [connectGo, repeatList]
  | rem + 1, c => by
    have hc : c + 1 + rem = c + (rem + 1) := by omega
    simp [connectGo, connectGo_allFail m interval rem (c + 1), repeatList, hc]

/-! ### Claim theorems: acquisition pipeline -/

/-- C4: if no scan attempt ever finds a matching peripheral (every
`find_light` call reports `DeviceNotFound`), the scan loop of `build`
performs exactly `scan_retries` find attempts, each followed by a sleep
of `scan_interval_ms`, and then returns `DeviceNotFound` — for every
value of `scan_retries` and whatever the best-effort stop-scan call
does. -/
theorem c4_scan_exhaustion {α : Type} (scan_retries interval : Nat)
    (outcome : Nat → Except BledomError α) (stopRes : Option String)
    (hall : ∀ k, outcome k = .error .deviceNotFound) :
    scanPhase scan_retries interval outcome stopRes =
      (repeatList scan_retries [.find, .sleep interval] ++ [.stopScan],
        .error .deviceNotFound) ∧
    countFind (scanPhase scan_retries interval outcome stopRes).1 = scan_retries := by
  have h := scanGo_allDNF outcome interval stopRes hall scan_retries 0
  refine ⟨h, ?_⟩
  show countFind (scanGo outcome interval stopRes 0 scan_retries).1 = scan_retries
  rw [h, countFind_append, countFind_repeatList]
  have h0 : countFind [Ev.stopScan] = 0 := rfl
  rw [h0]
  omega

/-- C4 witness: two fruitless attempts with `scan_retries = 2`. -/
theorem c4_scan_exhaustion_witness :
    scanPhase 2 1000 (fun _ => (.error .deviceNotFound : Except BledomError Nat)) none =
      ([.find, .sleep 1000, .find, .sleep 1000, .stopScan], .error .deviceNotFound) ∧
    countFind (scanPhase 2 1000
      (fun _ => (.error .deviceNotFound : Except BledomError Nat)) none).1 = 2 := by
  have h := c4_scan_exhaustion 2 1000
    (fun _ => (.error .deviceNotFound : Except BledomError Nat)) none (fun _ => rfl)
  exact ⟨by rw [h.1]; rfl, h.2⟩

/-- C5 counterexample: with `connection_retries = 0` and a connect call
that always fails, the connect loop still performs one connect attempt
(the claim, read at `connection_retries = 0`, asks for zero attempts)
before returning `ConnectionFailed`. -/
theorem c5_counterexample :
    connectPhase 0 100 (fun _ => some "le-connection-abort-by-local") =
      ([.connect], .error (.connectionFailed "le-connection-abort-by-local")) ∧
    countConnect (connectPhase 0 100 (fun _ => some "le-connection-abort-by-local")).1 = 1 ∧
    countConnect (connectPhase 0 100 (fun _ => some "le-connection-abort-by-local")).1 ≠ 0 :=
  ⟨rfl, rfl, by decide⟩

/-- C5 (amended): if every connect attempt fails, the connect loop
performs exactly `max connection_retries 1` attempts — `connection_retries`
attempts when `connection_retries ≥ 1`, but one attempt (not zero) when
`connection_retries = 0` — separated by sleeps of
`connection_interval_ms`, and returns `ConnectionFailed` carrying the
message of the last underlying transport error. -/
theorem c5_connect_exhaustion (connection_retries interval : Nat) (m : Nat → String) :
    connectPhase connection_retries interval (fun k => some (m k)) =
      (repeatList (connection_retries - 1) [.connect, .sleep interval] ++ [.connect],
        .error (.connectionFailed (m (connection_retries - 1)))) ∧
    countConnect (connectPhase connection_retries interval (fun k => some (m k))).1 =
      max connection_retries 1 := by
  have h := connectGo_allFail m interval (connection_retries - 1) 0
  have h0 : (0 : Nat) + (connection_retries - 1) = connection_retries - 1 := by omega
  rw [h0] at h
  refine ⟨h, ?_⟩
  show countConnect (connectGo (fun k => some (m k)) interval 0 (connection_retries - 1)).1 =
    max connection_retries 1
  rw [h]
  rw [countConnect_append, countConnect_repeatList]
  have h1 : countConnect [Ev.connect] = 1 := rfl
  rw [h1]
  omega

/-- C9 counterexample: with `scan_retries = 1`, a first attempt that
finds a peripheral, and a failing stop-scan call, `build` does not
proceed with the found peripheral: the stop-scan failure on the
found-match path is propagated as `ScanError`, so stopping the scan is
not best-effort there. -/
theorem c9_counterexample :
    scanPhase 1 50 (fun _ => (.ok 7 : Except BledomError Nat)) (some "adapter busy") =
      ([.find, .sleep 50, .stopScan],
        .error (.scanError "failed to stop scan: adapter busy")) ∧
    (scanPhase 1 50 (fun _ => (.ok 7 : Except BledomError Nat)) (some "adapter busy")).2 ≠
      .ok 7 :=
  ⟨rfl, fun h => Except.noConfusion h⟩

/-- C9 (amended): stopping the scan is best-effort on the exhaustion
path — a stop-scan failure never changes the `DeviceNotFound` outcome —
but not on the found-match path: there a stop-scan failure aborts
`build` with `ScanError("failed to stop scan: ..")` instead of
proceeding to connection, and only a successful stop lets the found
peripheral through. -/
theorem c9_stop_scan_best_effort {α : Type} (retries interval : Nat)
    (outcome : Nat → Except BledomError α) (stopRes : Option String) :
    ((∀ k, outcome k = .error .deviceNotFound) →
      (scanPhase retries interval outcome stopRes).2 = .error .deviceNotFound) ∧
    (∀ a p, a < retries → (∀ k, k < a → outcome k = .error .deviceNotFound) →
      outcome a = .ok p →
      (scanPhase retries interval outcome stopRes).2 =
        (match stopRes with
         | none => .ok p
         | some e => .error (.scanError ("failed to stop scan: " ++ e)))) := by
  constructor
  · intro hall
    show (scanGo outcome interval stopRes 0 retries).2 = _
    rw [scanGo_allDNF outcome interval stopRes hall retries 0]
  · intro a p ha hpre hfind
    show (scanGo outcome interval stopRes 0 retries).2 = _
    have hskip := scanGo_skip outcome interval stopRes a 0 retries
      (by intro k hk; simpa using hpre k hk) (by omega)
    obtain ⟨b', hb⟩ : ∃ b', retries - a = b' + 1 := ⟨retries - a - 1, by omega⟩
    rw [hskip, hb, Nat.zero_add]
    cases stopRes with
    | none => simp [scanGo, hfind]
    | some e => simp [scanGo, hfind]

/-- C9 witness: exhaustion outcome unchanged by a failing stop, and the
found-match path aborted by a failing stop. -/
theorem c9_stop_scan_best_effort_witness :
    (scanPhase 2 10 (fun _ => (.error .deviceNotFound : Except BledomError Nat))
      (some "busy")).2 = .error .deviceNotFound ∧
    (scanPhase 2 10 (fun _ => (.ok 5 : Except BledomError Nat)) (some "busy")).2 =
      .error (.scanError ("failed to stop scan: " ++ "busy")) := by
  refine ⟨(c9_stop_scan_best_effort 2 10 _ (some "busy")).1 (fun _ => rfl), ?_⟩
  have h := (c9_stop_scan_best_effort 2 10 (fun _ => (.ok 5 : Except BledomError Nat))
    (some "busy")).2 0 5 (by omega) (by intro k hk; omega) rfl
  simpa using h

/-- Walking `find_light` past a run of peripherals that have a
properties record but no matching name reaches the rest of the
enumeration; hitting a peripheral whose properties record is missing
then returns the `Other` error. -/
theorem find_light_props_missing (rest : List Peripheral) (bad : Peripheral)
    (hbad : bad.props = .ok none) :
    ∀ pre : List Peripheral,
      (∀ p ∈ pre, ∃ pr, p.props = .ok (some pr) ∧
        ∀ nm, pr.local_name = some nm → nameMatches nm = false) →
      find_light (pre ++ bad :: rest) =
        .error (.other "Peripheral properties not available")
  | [], _ => by simp [find_light, hbad]
  | p :: pre, hpre => by
    obtain ⟨pr, hp, hnm⟩ := hpre p (by simp)
    have ihh := find_light_props_missing rest bad hbad pre
      (fun q hq => hpre q (by simp [hq]))
    cases hln : pr.local_name with
    | none => simp [find_light, hp, hln, ihh]
    | some nm => simp [find_light, hp, hln, hnm nm hln, ihh]

/-- C10: if the enumeration holds a peripheral with no properties
record, preceded only by non-matching peripherals that do have records,
`find_light` returns the `Other` error "Peripheral properties not
available" (not `DeviceNotFound`) — whatever comes later in the
enumeration, matching or not — and a `build` whose scan attempt `a`
meets that enumeration (after `a` fruitless attempts, within the retry
budget) stops the scan and aborts with that error after exactly `a + 1`
find attempts: the remaining scan retries are not used. -/
theorem c10_missing_properties_aborts (pre rest : List Peripheral) (bad : Peripheral)
    (hbad : bad.props = .ok none)
    (hpre : ∀ p ∈ pre, ∃ pr, p.props = .ok (some pr) ∧
      ∀ nm, pr.local_name = some nm → nameMatches nm = false) :
    find_light (pre ++ bad :: rest) =
      .error (.other "Peripheral properties not available") ∧
    ∀ (retries interval a : Nat) (stopRes : Option String)
      (outcome : Nat → Except BledomError Peripheral),
      a < retries → (∀ k, k < a → outcome k = .error .deviceNotFound) →
      outcome a = find_light (pre ++ bad :: rest) →
      scanPhase retries interval outcome stopRes =
        (repeatList a [.find, .sleep interval] ++ [.find, .stopScan],
          .error (.other "Peripheral properties not available")) ∧
      countFind (scanPhase retries interval outcome stopRes).1 = a + 1 := by
  have hfl := find_light_props_missing rest bad hbad pre hpre
  refine ⟨hfl, ?_⟩
  intro retries interval a stopRes outcome ha hpre0 hfind
  rw [hfl] at hfind
  have hskip := scanGo_skip outcome interval stopRes a 0 retries
    (by intro k hk; simpa using hpre0 k hk) (by omega)
  obtain ⟨b', hb⟩ : ∃ b', retries - a = b' + 1 := ⟨retries - a - 1, by omega⟩
  have hphase : scanPhase retries interval outcome stopRes =
      (repeatList a [.find, .sleep interval] ++ [.find, .stopScan],
        .error (.other "Peripheral properties not available")) := by
    show scanGo outcome interval stopRes 0 retries = _
    rw [hskip, hb, Nat.zero_add]
    simp [scanGo, hfind]
  refine ⟨hphase, ?_⟩
  rw [hphase]
  show countFind (repeatList a [.find, .sleep interval] ++ [.find, .stopScan]) = a + 1
  rw [countFind_append, countFind_repeatList]
  have h1 : countFind [Ev.find, Ev.stopScan] = 1 := rfl
  rw [h1]

/-- C10 witness: a non-matching speaker, then a peripheral with no
properties record, then a matching light later in the enumeration; one
fruitless scan attempt, then the aborting one, inside a budget of 3. -/
theorem c10_missing_properties_aborts_witness :
    find_light [⟨0, .ok (some ⟨some "Kitchen Speaker"⟩)⟩, ⟨1, .ok none⟩,
        ⟨2, .ok (some ⟨some "ELK-BLEDOM-1234"⟩)⟩] =
      .error (.other "Peripheral properties not available") ∧
    scanPhase 3 7
      (fun k => if k = 0 then .error .deviceNotFound
        else find_light [⟨0, .ok (some ⟨some "Kitchen Speaker"⟩)⟩, ⟨1, .ok none⟩,
          ⟨2, .ok (some ⟨some "ELK-BLEDOM-1234"⟩)⟩]) none =
      ([.find, .sleep 7, .find, .stopScan],
        .error (.other "Peripheral properties not available")) ∧
    countFind (scanPhase 3 7
      (fun k => if k = 0 then .error .deviceNotFound
        else find_light [⟨0, .ok (some ⟨some "Kitchen Speaker"⟩)⟩, ⟨1, .ok none⟩,
          ⟨2, .ok (some ⟨some "ELK-BLEDOM-1234"⟩)⟩]) none).1 = 1 + 1 := by
  have h := c10_missing_properties_aborts
    [⟨0, .ok (some ⟨some "Kitchen Speaker"⟩)⟩]
    [⟨2, .ok (some ⟨some "ELK-BLEDOM-1234"⟩)⟩]
    ⟨1, .ok none⟩ rfl
    (by
      intro p hp
      simp only [List.mem_singleton] at hp
      subst hp
      exact ⟨⟨some "Kitchen Speaker"⟩, rfl, by
        intro nm hnm
        simp only [Option.some.injEq] at hnm
        subst hnm
        decide⟩)
  have h2 := h.2 3 7 1 none
    (fun k => if k = 0 then .error .deviceNotFound
      else find_light [⟨0, .ok (some ⟨some "Kitchen Speaker"⟩)⟩, ⟨1, .ok none⟩,
        ⟨2, .ok (some ⟨some "ELK-BLEDOM-1234"⟩)⟩])
    (by omega)
    (by intro k hk; have hk0 : k = 0 := by omega
        subst hk0; rfl)
    rfl
  refine ⟨h.1, ?_, h2.2⟩
  have := h2.1
  simpa [repeatList] using this
